import Mathlib

/-!
Shallow embedding of the dazzling420/Go-Logger repository (package `logger`
plus `config/models.go`), together with theorems settling the specification
claims about it.

Modelling conventions:
* A Go byte slice (`[]byte`) is an opaque blob, modelled as `List Nat`.
* zap levels are the integers zap assigns them (DEBUG = -1, INFO = 0, ...).
* The buffered channel `bufwriter chan []byte` is modelled as a FIFO queue
  with an explicit capacity; a send that would exceed the capacity blocks,
  modelled as `none`.
* A Go `interface{}` argument is modelled by an inductive of the dynamic
  types that matter to the claims; a failed type assertion (a Go panic) is
  an `Except.error`.
* The outcome of the downstream I/O (the lumberjack file write, or whether
  `zap.Config.Build` fails) is not decided by this package, so it enters the
  model as an explicit oracle parameter.
-/

namespace GoLogger

/-- A `[]byte` buffer: an opaque immutable blob of bytes. -/
abbrev Buf := List Nat

/-! ## Levels (`const` block and `GetLevel`, part_000 lines 15-44) -/

/-- `INFO = zap.InfoLevel` (0). -/
def INFO : Int := 0

/-- `WARN = zap.WarnLevel` (1). -/
def WARN : Int := 1

/-- `ERROR = zap.ErrorLevel` (2). -/
def ERROR : Int := 2

/-- `DPANIC = zap.DPanicLevel` (3). -/
def DPANIC : Int := 3

/-- `PANIC = zap.PanicLevel` (4). -/
def PANIC : Int := 4

/-- `FATAL = zap.FatalLevel` (5). -/
def FATAL : Int := 5

/-- `DEBUG = zap.DebugLevel` (-1). -/
def DEBUG : Int := -1

/-- `GetLevel` from part_000: a `switch` on the level string.  Note the
`"DPANIC"` case returns `PANIC`, exactly as the source does. -/
def GetLevel (l : String) : Int :=
  if l = "INFO" then INFO
  else if l = "WARN" then WARN
  else if l = "ERROR" then ERROR
  else if l = "DPANIC" then PANIC
  else if l = "PANIC" then PANIC
  else if l = "FATAL" then FATAL
  else if l = "DEBUG" then DEBUG
  else INFO

/-! ## Configuration (`config/models.go`) -/

namespace config

/-- `config.Logger` from models.go.  Go `int` fields are `Int`. -/
structure Logger where
  logFileName : String
  loggingLevel : String
  logFileSizeCappingInMBs : Int
  maxLogBackupsCount : Int
  maxOldLogRetentionInDays : Int
  oldLogsCompressionRequired : Bool
deriving DecidableEq, Repr

/-- `config.Config` from models.go. -/
structure Config where
  logger : Logger
deriving DecidableEq, Repr

end config

/-! ## The asynchronous dual-sink writer (`bufwriter`, part_000 lines 136-170) -/

/-- The settings of a `lumberjack.Logger` value (the rotating-file sink). -/
structure LumberjackLogger where
  filename : String
  maxSize : Int
  maxBackups : Int
  maxAge : Int
  compress : Bool
deriving DecidableEq, Repr

/-- The state of one `bufwriter` channel together with the observable
output of its worker: `queue` is the content of the buffered channel
(`cap` its capacity), `stdoutOut` the buffers written to `os.Stdout` so
far, and `fileOut` the buffers handed to the lumberjack sink so far,
paired with the error (if any) that the file write returned. -/
structure BufwriterSys where
  cap : Nat
  queue : List Buf
  stdoutOut : List Buf
  fileOut : List (Buf × Option String)
deriving DecidableEq, Repr

namespace bufwriter

/-- `bufwriter.Write` (part_000 lines 138-141): `bw <- p; return len(p), nil`.
A send on a buffered channel completes only when the queue holds fewer
elements than the capacity; otherwise the caller blocks (`none`).  On
completion the buffer itself is appended to the queue and the pair
`(len(p), nil)` is returned. -/
def Write (s : BufwriterSys) (p : Buf) : Option (BufwriterSys × Nat × Option String) :=
  if s.queue.length < s.cap then
    some ({ s with queue := s.queue ++ [p] }, p.length, none)
  else
    none

end bufwriter

/-- One observable action of the worker goroutine. -/
inductive WriteEvent where
  | toStdout (b : Buf)
  | toFile (b : Buf) (err : Option String)
deriving DecidableEq, Repr

/-- One iteration of the worker loop in `NewBufwriter` (part_000 lines
163-168): `for p := range c { os.Stdout.Write(p); l.Write(p) }` — dequeue
the head of the channel, write it to stdout, then hand it to the
lumberjack sink.  `fileErr` is the oracle giving the outcome of the file
write; the loop ignores it either way. -/
def workerStep (fileErr : Buf → Option String) (s : BufwriterSys) : Option BufwriterSys :=
  match s.queue with
  | [] => none
  | p :: rest =>
      some { s with
              queue := rest,
              stdoutOut := s.stdoutOut ++ [p],
              fileOut := s.fileOut ++ [(p, fileErr p)] }

/-- The event trace the worker loop produces while consuming the buffers
`bufs` in channel order: for each buffer, a stdout write followed by a
file write whose outcome is given by the oracle `fileErr`. -/
def workerTrace (fileErr : Buf → Option String) : List Buf → List WriteEvent
  | [] => []
  | p :: rest =>
      WriteEvent.toStdout p :: WriteEvent.toFile p (fileErr p) :: workerTrace fileErr rest

/-- The subsequence of buffers a trace writes to stdout, in order. -/
def stdoutWrites : List WriteEvent → List Buf
  | [] => []
  | WriteEvent.toStdout b :: r => b :: stdoutWrites r
  | WriteEvent.toFile _ _ :: r => stdoutWrites r

/-- The subsequence of buffers a trace hands to the file sink, in order. -/
def fileWrites : List WriteEvent → List Buf
  | [] => []
  | WriteEvent.toStdout _ :: r => fileWrites r
  | WriteEvent.toFile b _ :: r => b :: fileWrites r

/-- The result of `NewBufwriter` (part_000 lines 155-170): the fresh
channel of the requested capacity, the lumberjack sink it builds, and the
number of worker goroutines it starts. -/
structure BufwriterHandle where
  sys : BufwriterSys
  sink : LumberjackLogger
  workerCount : Nat
deriving DecidableEq, Repr

/-- `NewBufwriter(n, logFile)`: `make(bufwriter, n)` gives an empty queue
of capacity `n`; the lumberjack sink is built with `MaxSize: 500`,
`MaxBackups: 10`, `MaxAge: 7` and `Compress` left at its zero value
`false`; exactly one worker goroutine is started. -/
def NewBufwriter (n : Nat) (logFile : String) : BufwriterHandle :=
  { sys := { cap := n, queue := [], stdoutOut := [], fileOut := [] },
    sink := { filename := logFile, maxSize := 500, maxBackups := 10,
              maxAge := 7, compress := false },
    workerCount := 1 }

/-! ## The `standardLogger.Error` method (part_000 lines 258-274) -/

/-- A Go `interface{}` value passed as a variadic argument to a leveled
method: either a value whose dynamic type implements `error` (carrying its
`Error()` message), or any other value. -/
inductive GoVal where
  | err (msg : String)
  | str (s : String)
  | int (n : Int)
  | other (tag : String)
deriving DecidableEq, Repr

/-- The checked type assertion `v.(error)`: succeeds exactly on values
whose dynamic type implements `error`, yielding the message. -/
def asError : GoVal → Option String
  | GoVal.err m => some m
  | _ => none

/-- What `standardLogger.Error` observably emits: the value of the
`response_message` field attached via `zap.Fields`, and the positional
argument list passed on to `s.logger.Error(args...)`. -/
structure ErrorRecord where
  responseMessage : String
  args : List GoVal
deriving DecidableEq, Repr

namespace standardLogger

/-- `standardLogger.Error(args ...interface{})`: reads
`args[len(args)-1]` — a runtime panic when `args` is empty — and asserts
it to `error`.  On success the error's message becomes `reponseMessage`
and `args` becomes `append(args[:len(args)-1], " ", errString)`; otherwise
`reponseMessage` stays `"unknown"` and `args` is passed unchanged.  The
record is emitted with the field `response_message = reponseMessage`. -/
def Error (args : List GoVal) : Except String ErrorRecord :=
  match args.getLast? with
  | none => Except.error "runtime error: index out of range"
  | some last =>
      match asError last with
      | some m =>
          Except.ok { responseMessage := m,
                      args := args.dropLast ++ [GoVal.str " ", GoVal.str m] }
      | none =>
          Except.ok { responseMessage := "unknown", args := args }

end standardLogger

/-! ## `getConfigFromInterface` and `NewService` (part_000 lines 172-244) -/

/-- The dynamic type of the `interface{}` argument handed to
`NewService`: the value type `config.Logger`, a `*config.Logger` pointer,
a `config.Config`, the nil interface, or anything else. -/
inductive GoInterface where
  | loggerVal (l : config.Logger)
  | loggerPtr (l : config.Logger)
  | configVal (c : config.Config)
  | nilVal
  | otherVal (tag : String)
deriving DecidableEq, Repr

/-- `getConfigFromInterface(confi)`: the unchecked type assertion
`confi.(config.Logger)` — it succeeds only when the dynamic type is
exactly the value type `config.Logger`, and panics otherwise. -/
def getConfigFromInterface : GoInterface → Except String config.Logger
  | GoInterface.loggerVal l => Except.ok l
  | _ => Except.error "interface conversion: interface is not config.Logger"

/-- The `zap.Config` that `NewService` assembles. -/
structure ZapConfig where
  encoding : String
  level : Int
  outputPaths : List String
  errorOutputPaths : List String
deriving DecidableEq, Repr

/-- What `NewService` observably produces: the `zap.Config` it built, the
lumberjack sink it registered (if any), the error-level messages it logs
about itself during construction (in order), and whether it fell back to
the `zap.NewExample` logger. -/
structure NewServiceResult where
  cfg : ZapConfig
  registeredSink : Option LumberjackLogger
  selfLogs : List String
  usesFallback : Bool
deriving DecidableEq, Repr

/-- Go's `strings.TrimSpace`, used on the configured file name. -/
def trimSpace (s : String) : String := s.trim

/-- The body of `NewService` after the successful type assertion
(part_000 lines 178-244).  `buildFails` is the oracle for whether
`cfg.Build()` returns an error.  The sink is registered and the file name
appended to `OutputPaths` exactly when the trimmed file name is
non-empty; `"Was unable to create logger file!"` is self-logged on both
branches, the fallback message only on the failing one. -/
def newServiceImpl (buildFails : Bool) (conf : config.Logger) : NewServiceResult :=
  let sink : Option LumberjackLogger :=
    if trimSpace conf.logFileName ≠ "" then
      some { filename := conf.logFileName,
             maxSize := conf.logFileSizeCappingInMBs,
             maxBackups := conf.maxLogBackupsCount,
             maxAge := conf.maxOldLogRetentionInDays,
             compress := conf.oldLogsCompressionRequired }
    else none
  let baseCfg : ZapConfig :=
    { encoding := "json",
      level := GetLevel conf.loggingLevel,
      outputPaths := ["stdout"],
      errorOutputPaths := ["stderr"] }
  let cfg :=
    if trimSpace conf.logFileName ≠ "" then
      { baseCfg with outputPaths := baseCfg.outputPaths ++ [conf.logFileName] }
    else baseCfg
  if buildFails then
    { cfg := cfg,
      registeredSink := sink,
      selfLogs := ["Was unable to create logger file!",
                   "Was unable to create desired logger, running on simple logger!"],
      usesFallback := true }
  else
    { cfg := cfg,
      registeredSink := sink,
      selfLogs := ["Was unable to create logger file!"],
      usesFallback := false }

/-- `NewService(config interface{})`: first `getConfigFromInterface`
(whose panic propagates, so nothing is constructed on a failed
assertion), then the logger construction. -/
def NewService (buildFails : Bool) (x : GoInterface) : Except String NewServiceResult :=
  (getConfigFromInterface x).map (newServiceImpl buildFails)

/-- `true` exactly when the `Except` computation did not panic. -/
def exceptOk {α : Type} : Except String α → Bool
  | Except.ok _ => true
  | Except.error _ => false

/-! ## Theorems for the claims -/

/-- Claim C1: for every byte buffer `buf`, `bufwriter.Write(buf)` enqueues
`buf` itself, unmodified, onto the internal channel and returns the pair
`(len(buf), nil)`; the returned byte count and nil error never depend on
the outcome of the downstream stdout or file writes (the whole state `s`,
including arbitrary past stdout/file outcomes, is universally
quantified, and the second conjunct says the returned pair is the same
for any state sharing the queue). -/
theorem write_enqueues_buf_and_reports_len (s : BufwriterSys) (p : Buf)
    (h : s.queue.length < s.cap) :
    bufwriter.Write s p = some ({ s with queue := s.queue ++ [p] }, p.length, none) ∧
    ∀ t : BufwriterSys, t.cap = s.cap → t.queue = s.queue →
      (bufwriter.Write t p).map (fun r => (r.2.1, r.2.2)) = some (p.length, none) := by
  constructor
  · unfold bufwriter.Write
    rw [if_pos h]
  · intro t hcap hq
    unfold bufwriter.Write
    rw [hcap, hq, if_pos h]
    rfl

/-- Witness for C1 at a concrete state with non-trivial past sink
outcomes, including a failed file write. -/
theorem write_enqueues_buf_and_reports_len_witness :
    ((⟨2, [], [[1]], [([2], some "disk full")]⟩ : BufwriterSys).queue.length <
        (⟨2, [], [[1]], [([2], some "disk full")]⟩ : BufwriterSys).cap) ∧
    bufwriter.Write ⟨2, [], [[1]], [([2], some "disk full")]⟩ [7, 8] =
      some (⟨2, [[7, 8]], [[1]], [([2], some "disk full")]⟩, 2, none) := by
  refine ⟨by decide, ?_⟩
  have h := (write_enqueues_buf_and_reports_len
      ⟨2, [], [[1]], [([2], some "disk full")]⟩ [7, 8] (by decide)).1
  simpa using h

/-- Claim C2: the worker dequeues buffers in FIFO order and, for each
buffer, writes it to stdout first and then to the file sink; a failed
file write (any oracle `fileErr`) does not stop subsequent stdout
writes — the stdout projection of the trace is always the full buffer
sequence in order. -/
theorem worker_fifo_dual_write (fileErr : Buf → Option String) (bufs : List Buf) :
    workerTrace fileErr bufs =
      bufs.flatMap (fun b => [WriteEvent.toStdout b, WriteEvent.toFile b (fileErr b)]) ∧
    stdoutWrites (workerTrace fileErr bufs) = bufs ∧
    fileWrites (workerTrace fileErr bufs) = bufs := by
  induction bufs with
  | nil => exact ⟨rfl, rfl, rfl⟩
  | cons b rest ih =>
      refine ⟨?_, ?_, ?_⟩
      · simp [workerTrace, ih.1]
      · simp [workerTrace, stdoutWrites, ih.2.1]
      · simp [workerTrace, fileWrites, ih.2.2]

/-- Claim C3: when the final argument is an error value with message `m`,
`standardLogger.Error` emits a record with `response_message = m` and the
positional arguments become the original prefix followed by the
placeholder separator `" "` and the literal text `m`. -/
theorem error_extracts_error_message (args : List GoVal) (m : String)
    (h : args.getLast? = some (GoVal.err m)) :
    standardLogger.Error args =
      Except.ok { responseMessage := m,
                  args := args.dropLast ++ [GoVal.str " ", GoVal.str m] } := by
  unfold standardLogger.Error
  rw [h]
  rfl

/-- Witness for C3 with the spec's example message: final argument
`error("boom")`. -/
theorem error_extracts_error_message_witness :
    ([GoVal.str "ctx", GoVal.err "boom"] : List GoVal).getLast? = some (GoVal.err "boom") ∧
    standardLogger.Error [GoVal.str "ctx", GoVal.err "boom"] =
      Except.ok { responseMessage := "boom",
                  args := [GoVal.str "ctx", GoVal.str " ", GoVal.str "boom"] } := by
  refine ⟨by decide, ?_⟩
  have h := error_extracts_error_message [GoVal.str "ctx", GoVal.err "boom"] "boom" (by decide)
  simpa using h

/-- Counterexample to claim C4 as stated: on the empty argument list the
method is NOT handled silently — `args[len(args)-1]` is an
index-out-of-range panic, so no record with `response_message =
"unknown"` is emitted. -/
theorem error_on_empty_args_panics :
    standardLogger.Error ([] : List GoVal) =
      Except.error "runtime error: index out of range" ∧
    exceptOk (standardLogger.Error ([] : List GoVal)) = false := ⟨rfl, rfl⟩

/-- Amended claim C4: for every NON-empty argument list whose final
argument is not an error value, the call takes the not-an-error branch
without modifying the arguments and the emitted record's
`response_message` field equals `"unknown"`; the empty argument list
instead panics with an index-out-of-range error. -/
theorem error_nonerror_last_defaults_unknown (args : List GoVal) (last : GoVal)
    (h : args.getLast? = some last) (hne : asError last = none) :
    standardLogger.Error args =
      Except.ok { responseMessage := "unknown", args := args } := by
  unfold standardLogger.Error
  rw [h]
  dsimp only
  rw [hne]

/-- Witness for the amended C4: final argument an int (a malformed shape
where an error might be expected). -/
theorem error_nonerror_last_defaults_unknown_witness :
    ([GoVal.str "x", GoVal.int 3] : List GoVal).getLast? = some (GoVal.int 3) ∧
    asError (GoVal.int 3) = none ∧
    standardLogger.Error [GoVal.str "x", GoVal.int 3] =
      Except.ok { responseMessage := "unknown",
                  args := [GoVal.str "x", GoVal.int 3] } :=
  ⟨by decide, rfl,
    error_nonerror_last_defaults_unknown [GoVal.str "x", GoVal.int 3] (GoVal.int 3)
      (by decide) rfl⟩

/-- Claim C5: `GetLevel` maps each string of the fixed enumeration to its
level, with `"DPANIC"` resolving to the same level as `"PANIC"`, and
every string outside the enumeration resolves to `INFO`. -/
theorem getLevel_enumeration_and_default :
    (GetLevel "INFO" = INFO ∧ GetLevel "WARN" = WARN ∧ GetLevel "ERROR" = ERROR ∧
     GetLevel "DPANIC" = PANIC ∧ GetLevel "PANIC" = PANIC ∧
     GetLevel "FATAL" = FATAL ∧ GetLevel "DEBUG" = DEBUG) ∧
    GetLevel "DPANIC" = GetLevel "PANIC" ∧
    ∀ s : String,
      s ∉ (["INFO", "WARN", "ERROR", "DPANIC", "PANIC", "FATAL", "DEBUG"] : List String) →
      GetLevel s = INFO := by
  refine ⟨⟨by decide, by decide, by decide, by decide, by decide, by decide, by decide⟩,
    by decide, ?_⟩
  intro s hs
  simp only [List.mem_cons, List.not_mem_nil, or_false, not_or] at hs
  obtain ⟨h1, h2, h3, h4, h5, h6, h7⟩ := hs
  unfold GetLevel
  rw [if_neg h1, if_neg h2, if_neg h3, if_neg h4, if_neg h5, if_neg h6, if_neg h7]

/-- Witness for C5's default case at a string outside the enumeration. -/
theorem getLevel_enumeration_and_default_witness :
    ("banana" : String) ∉
      (["INFO", "WARN", "ERROR", "DPANIC", "PANIC", "FATAL", "DEBUG"] : List String) ∧
    GetLevel "banana" = INFO :=
  ⟨by decide, getLevel_enumeration_and_default.2.2 "banana" (by decide)⟩

/-- Claim C6: for every capacity `n` and file path, `NewBufwriter`
allocates an (initially empty) queue of exactly capacity `n`, a
rotating-file sink with defaults 500 MB / 10 backups / 7 days /
compression disabled, and starts exactly one background worker. -/
theorem newBufwriter_defaults (n : Nat) (logFile : String) :
    (NewBufwriter n logFile).sys.cap = n ∧
    (NewBufwriter n logFile).sys.queue = [] ∧
    (NewBufwriter n logFile).sink =
      { filename := logFile, maxSize := 500, maxBackups := 10,
        maxAge := 7, compress := false } ∧
    (NewBufwriter n logFile).workerCount = 1 :=
  ⟨rfl, rfl, rfl, rfl⟩

/-- Claim C7: when the queue holds exactly `cap` pending buffers, `Write`
blocks (`none`); after the worker dequeues one item (any file-write
oracle), the write completes without dropping or error, appending the
buffer behind the remaining queue. -/
theorem write_blocks_when_full_until_dequeue (s : BufwriterSys) (p : Buf)
    (hfull : s.queue.length = s.cap) (hpos : 0 < s.cap) :
    bufwriter.Write s p = none ∧
    ∀ fileErr : Buf → Option String, ∃ s' : BufwriterSys,
      workerStep fileErr s = some s' ∧
      s'.queue = s.queue.tail ∧
      bufwriter.Write s' p =
        some ({ s' with queue := s'.queue ++ [p] }, p.length, none) := by
  constructor
  · unfold bufwriter.Write
    rw [if_neg (by omega)]
  · intro fileErr
    obtain ⟨a, rest, hq⟩ : ∃ a rest, s.queue = a :: rest := by
      cases hq : s.queue with
      | nil => rw [hq] at hfull; simp at hfull; omega
      | cons a rest => exact ⟨a, rest, rfl⟩
    refine ⟨{ s with queue := rest,
                     stdoutOut := s.stdoutOut ++ [a],
                     fileOut := s.fileOut ++ [(a, fileErr a)] }, ?_, ?_, ?_⟩
    · unfold workerStep
      rw [hq]
    · rw [hq]
      rfl
    · have hlen : rest.length < s.cap := by
        rw [hq] at hfull
        simp at hfull
        omega
      unfold bufwriter.Write
      simp only
      rw [if_pos hlen]

/-- Witness for C7 with a capacity-1 writer: the empty writer accepts
exactly one pending write, the full writer blocks, and after one worker
step the blocked write completes. -/
theorem write_blocks_when_full_until_dequeue_witness :
    bufwriter.Write ⟨1, [], [], []⟩ [7] = some (⟨1, [[7]], [], []⟩, 1, none) ∧
    (⟨1, [[7]], [], []⟩ : BufwriterSys).queue.length = (⟨1, [[7]], [], []⟩ : BufwriterSys).cap ∧
    (0 : Nat) < (⟨1, [[7]], [], []⟩ : BufwriterSys).cap ∧
    bufwriter.Write ⟨1, [[7]], [], []⟩ [8] = none := by
  refine ⟨by decide, by decide, by decide, ?_⟩
  exact (write_blocks_when_full_until_dequeue ⟨1, [[7]], [], []⟩ [8] (by decide) (by decide)).1

/-- Claim C8: the logger `NewService` builds always has `"stdout"` among
its output paths, and the configured log file is an additional output
path (and a lumberjack sink is registered) exactly when the file name is
non-empty after trimming; with an empty file name, stdout is the only
output path and no file sink is configured. -/
theorem newService_output_paths (buildFails : Bool) (conf : config.Logger) :
    ∃ r : NewServiceResult,
      NewService buildFails (GoInterface.loggerVal conf) = Except.ok r ∧
      "stdout" ∈ r.cfg.outputPaths ∧
      (if trimSpace conf.logFileName = "" then
        r.cfg.outputPaths = ["stdout"] ∧ r.registeredSink = none
      else
        r.cfg.outputPaths = ["stdout", conf.logFileName] ∧
          r.registeredSink.map LumberjackLogger.filename = some conf.logFileName) := by
  refine ⟨newServiceImpl buildFails conf, rfl, ?_, ?_⟩
  · by_cases h : trimSpace conf.logFileName = "" <;>
      cases buildFails <;> simp [newServiceImpl, h]
  · by_cases h : trimSpace conf.logFileName = ""
    · rw [if_pos h]
      cases buildFails <;> simp [newServiceImpl, h]
    · rw [if_neg h]
      cases buildFails <;> simp [newServiceImpl, h]

/-- Claim C9: `NewService` succeeds exactly when the dynamic type of its
argument is the value type `config.Logger`; a `*config.Logger` pointer, a
`config.Config`, nil, or any other type fails the unchecked assertion in
`getConfigFromInterface` before any logger is constructed. -/
theorem newService_requires_logger_value_type (b : Bool) (x : GoInterface) :
    (exceptOk (getConfigFromInterface x) = true ↔ ∃ l, x = GoInterface.loggerVal l) ∧
    (exceptOk (NewService b x) = true ↔ ∃ l, x = GoInterface.loggerVal l) := by
  cases x <;> simp [getConfigFromInterface, NewService, Except.map, exceptOk]

/-- Claim C10: every call of `NewService` on a `config.Logger` value
self-logs the error `"Was unable to create logger file!"`, even when the
build succeeds; the fallback message is logged and the example logger
substituted exactly when the build fails. -/
theorem newService_always_logs_file_error (buildFails : Bool) (conf : config.Logger) :
    ∃ r : NewServiceResult,
      NewService buildFails (GoInterface.loggerVal conf) = Except.ok r ∧
      "Was unable to create logger file!" ∈ r.selfLogs ∧
      (("Was unable to create desired logger, running on simple logger!" ∈ r.selfLogs) ↔
        buildFails = true) ∧
      r.usesFallback = buildFails := by
  refine ⟨newServiceImpl buildFails conf, rfl, ?_, ?_, ?_⟩ <;>
    cases buildFails <;> simp [newServiceImpl]

end GoLogger
